import Mathlib

/- Verification of the CMEF X crypto scoring engine
   (source: cmef_x_bitvavo_app.py).

   The scoring engine works on Python floats; we model the arithmetic over
   the real numbers.  Python's round(x, 3) rounds half to even (banker's
   rounding); rnd / round3 below model that exactly. -/

namespace CmefX

noncomputable section

/-- Round a real to the nearest integer, ties to even — the rounding mode of
Python's builtin round(). -/
def rnd (q : ℝ) : ℤ :=
  if Int.fract q = 1 / 2 then (if Even ⌊q⌋ then ⌊q⌋ else ⌊q⌋ + 1)
  else ⌊q + 1 / 2⌋

/-- Python round(x, 3): scale by 1000, round half to even, scale back. -/
def round3 (x : ℝ) : ℝ := (rnd (x * 1000) : ℝ) / 1000

/-- Bitvavo ticker/24h payload as consumed by the engine: the fields
"last" and "volume" (source lines 54, 226-227). -/
structure Ticker where
  last : ℝ
  volume : ℝ

/-- One candle row; the engine reads the open of the first row, the close of
the last row, and the close column (source lines 245-246, 300). -/
structure Candle where
  open_ : ℝ
  close : ℝ

/-- CoinGecko market_data.market_cap.eur, optional (source line 234). -/
structure MarketData where
  market_cap_eur : Option ℝ

/-- CoinGecko community_data fields used by the engine (source lines 270-272). -/
structure CommunityData where
  twitter_followers : Option ℝ
  reddit_subscribers : Option ℝ

/-- CoinGecko coin payload as consumed by the engine; both sub-objects may be
absent (source lines 233, 270). -/
structure CGInfo where
  market_data : Option MarketData
  community_data : Option CommunityData

/-- GitHub repo payload as consumed by the engine (source lines 263, 285-287). -/
structure GHRepo where
  stargazers_count : Option ℝ
  open_issues_count : Option ℝ

/-- trace['K_components'] (source line 260). -/
structure KComponents where
  A1_market_cap : ℝ
  A5_volume : ℝ
  A15_perf : ℝ

/-- trace['M_components'] (source line 280). -/
structure MComponents where
  B1_github : ℝ
  B6_community : ℝ
  B5_incentives : ℝ

/-- The 'trace' sub-dict built by compute_cmef_scores (numeric entries;
the constant r_reg note string is omitted, r_reg itself is the literal 0.3). -/
structure Trace where
  bitvavo_price : ℝ
  bitvavo_volume : ℝ
  coingecko_market_cap_eur : Option ℝ
  pct_change_30d : Option ℝ
  K_components : KComponents
  github_stars : Option ℝ
  coingecko_twitter_followers : Option ℝ
  coingecko_reddit_subscribers : Option ℝ
  M_components : MComponents
  r_tech_calc : ℝ
  r_fin_calc : ℝ

/-- The dict returned by compute_cmef_scores (source lines 314-324). -/
structure ScoreResult where
  price : ℝ
  volume : ℝ
  K : ℝ
  M : ℝ
  OTS : ℝ
  R : ℝ
  RAR : ℝ
  trace : Trace
  market : String

/-- normalize_log (source lines 208-214).  The Python function also returns 0
when x is None; every call site substitutes 0.0 for a missing value first
(line 238), so the argument here is a plain real.  The try/except around
log10 cannot fire at the one call site (ref = 1.2e12). -/
def normalize_log (x : ℝ) (ref : ℝ) : ℝ :=
  if x ≤ 0 then 0
  else min 1 (max 0 (Real.logb 10 x / Real.logb 10 ref))

/-- to_score_0_5 (source lines 216-217): clamp value*5 into [0,5], then
round(…, 3). -/
def to_score_0_5 (value_0_1 : ℝ) : ℝ := round3 (max 0 (min 5 (value_0_1 * 5)))

/-- Arithmetic mean of a list, 0 on the empty list (division by zero). -/
def mean (l : List ℝ) : ℝ := l.sum / l.length

/-- numpy population standard deviation: sqrt of the mean squared deviation. -/
def np_std (l : List ℝ) : ℝ := Real.sqrt (mean (l.map (fun x => (x - mean l) ^ 2)))

/-- np.diff(closes) / closes[:-1] (source line 301): elementwise simple
returns between consecutive closes. -/
def np_diff_div (closes : List ℝ) : List ℝ :=
  List.zipWith (fun a b => (b - a) / a) closes closes.tail

/-- The alpha-weighted blend K*alpha + M*(1-alpha) inside the OTS line
(source line 311), before the round. -/
def OTS_blend (K M alpha : ℝ) : ℝ := K * alpha + M * (1 - alpha)

/-- The pct_30d computation (source lines 242-250): None unless there are at
least two candles; else (last close - first open) / first open, with 0 when
the first open is 0. -/
def pct_30d_of (candles : Option (List Candle)) : Option ℝ :=
  match candles with
  | some cs =>
    if 2 ≤ cs.length then
      some (let earliest := (cs.head?.map Candle.open_).getD 0
            let latest := (cs.getLast?.map Candle.close).getD 0
            if earliest = 0 then 0 else (latest - earliest) / earliest)
    else none
  | none => none

/-- A15 from pct_30d (source lines 251-256): map -1..+1 to 0..1, clamp,
score; 2.5 neutral fallback when no pct is available. -/
def A15_of (pct_30d : Option ℝ) : ℝ :=
  match pct_30d with
  | some p => to_score_0_5 (max 0 (min 1 ((p + 1) / 2)))
  | none => 2.5

/-- r_tech heuristic (source lines 284-290): 0.2 + (open issues / stars)*1.2
clamped into [0.1, 0.9] when stars are known and positive, else 0.5. -/
def r_tech_of (gh_repo_obj : Option GHRepo) : ℝ :=
  match gh_repo_obj with
  | some gh =>
    match gh.stargazers_count with
    | some s =>
      if 0 < s then
        min 0.9 (max 0.1 (0.2 + gh.open_issues_count.getD 0 / s * 1.2))
      else 0.5
    | none => 0.5
  | none => 0.5

/-- r_fin from candle volatility (source lines 298-305): annualized standard
deviation of the daily simple returns, scaled onto [0.1, 0.9]; fixed default
0.4 without at least two candles. -/
def r_fin_of (candles : Option (List Candle)) : ℝ :=
  match candles with
  | some cs =>
    if 2 ≤ cs.length then
      let returns := np_diff_div (cs.map Candle.close)
      if 0 < returns.length then
        0.1 + min 1 (np_std returns * Real.sqrt 365 / 3) * 0.8
      else 0.4
    else 0.4
  | none => 0.4

/-- compute_cmef_scores (source lines 219-324), transcribed let-for-let. -/
def compute_cmef_scores (market : String) (ticker : Ticker)
    (candles : Option (List Candle)) (cg_info : Option CGInfo)
    (gh_repo_obj : Option GHRepo) (alpha : ℝ) : ScoreResult :=
  let price := ticker.last
  let volume := ticker.volume
  let market_cap_eur : Option ℝ :=
    (cg_info.bind CGInfo.market_data).bind MarketData.market_cap_eur
  let A1 := to_score_0_5 (normalize_log (market_cap_eur.getD 0) 1200000000000)
  let A5 := to_score_0_5 (min 1 (volume / 1000000000))
  let pct_30d : Option ℝ := pct_30d_of candles
  let A15 : ℝ := A15_of pct_30d
  let K := round3 (A1 * 0.4 + A5 * 0.3 + A15 * 0.3)
  let github_stars : Option ℝ := gh_repo_obj.bind GHRepo.stargazers_count
  let B1 := to_score_0_5 (min 1 (github_stars.getD 0 / 50000))
  let community : Option CommunityData := cg_info.bind CGInfo.community_data
  let twitter_followers : Option ℝ := community.bind CommunityData.twitter_followers
  let reddit_subs : Option ℝ := community.bind CommunityData.reddit_subscribers
  let tw_norm := min 1 (twitter_followers.getD 0 / 5000000)
  let rd_norm := min 1 (reddit_subs.getD 0 / 5000000)
  let B6 := to_score_0_5 ((tw_norm + rd_norm) / 2)
  let B5 : ℝ := 2.5
  let M := round3 (B1 * 0.4 + B6 * 0.4 + B5 * 0.2)
  let r_tech : ℝ := r_tech_of gh_repo_obj
  let r_reg : ℝ := 0.3
  let r_fin : ℝ := r_fin_of candles
  let R := round3 (r_tech * 0.4 + r_reg * 0.35 + r_fin * 0.25)
  let OTS := round3 (OTS_blend K M alpha)
  let RAR := round3 (OTS * (1 - R))
  { price := price
    volume := volume
    K := K
    M := M
    OTS := OTS
    R := R
    RAR := RAR
    trace :=
      { bitvavo_price := price
        bitvavo_volume := volume
        coingecko_market_cap_eur := market_cap_eur
        pct_change_30d := pct_30d
        K_components := { A1_market_cap := A1, A5_volume := A5, A15_perf := A15 }
        github_stars := github_stars
        coingecko_twitter_followers := twitter_followers
        coingecko_reddit_subscribers := reddit_subs
        M_components := { B1_github := B1, B6_community := B6, B5_incentives := B5 }
        r_tech_calc := r_tech
        r_fin_calc := r_fin }
    market := market }

/-- The recommendation ladder as written in the source (lines 496-505): RAR is
compared against 65 / 50 / 35 / 20, with no reference to the profile. -/
def recommendation (RAR : ℝ) : String :=
  if RAR ≥ 65 then ("Core")
  else if RAR ≥ 50 then ("Tactical / Core")
  else if RAR ≥ 35 then ("Small / Cautious")
  else if RAR ≥ 20 then ("Speculative / Small")
  else ("Avoid")

/-- alpha_map lookup with default 0.6 (source lines 398-399). -/
def alpha_map (profile : String) : ℝ :=
  if profile = ("Conservative") then 0.7
  else if profile = ("Balanced") then 0.6
  else if profile = ("Growth") then 0.5
  else 0.6

/-- The error shown when the price guard fails (source line 402). -/
def could_not_fetch_msg : String :=
  "❌ Could not fetch market price from Bitvavo. Please check your connection or try again."

/-- What the report body carries: the ScoreResult plus the recommendation
label derived from its RAR (source lines 405, 496-509). -/
structure Report where
  results : ScoreResult
  rec_ : String

/-- The report-generation flow around the scoring call (source lines
398-405 and 496-505): resolve alpha from the profile, halt with an error if
the ticker is missing or its last price is ≤ 0, otherwise score and attach
the recommendation. -/
def generate_report (best_market : String) (ticker : Option Ticker)
    (candles : Option (List Candle)) (cg_info : Option CGInfo)
    (gh_obj : Option GHRepo) (profile : String) : Except String Report :=
  let alpha := alpha_map profile
  match ticker with
  | none => Except.error could_not_fetch_msg
  | some t =>
    if t.last ≤ 0 then Except.error could_not_fetch_msg
    else
      let results := compute_cmef_scores best_market t candles cg_info gh_obj alpha
      Except.ok { results := results, rec_ := recommendation results.RAR }

/-- Modelled from the spec: the rounding discipline the spec prescribes
(§4.3: "intermediate values should retain full precision until the final
round") — the same pipeline as compute_cmef_scores but with no intermediate
rounding anywhere; the result is the raw risk-adjusted value OTS*(1-R), to be
rounded once for publication. -/
def unrounded_RAR (ticker : Ticker) (candles : Option (List Candle))
    (cg_info : Option CGInfo) (gh_repo_obj : Option GHRepo) (alpha : ℝ) : ℝ :=
  let volume := ticker.volume
  let market_cap_eur : Option ℝ :=
    (cg_info.bind CGInfo.market_data).bind MarketData.market_cap_eur
  let A1 := max 0 (min 5 (normalize_log (market_cap_eur.getD 0) 1200000000000 * 5))
  let A5 := max 0 (min 5 (min 1 (volume / 1000000000) * 5))
  let pct_30d : Option ℝ := pct_30d_of candles
  let A15 : ℝ :=
    match pct_30d with
    | some p => max 0 (min 5 (max 0 (min 1 ((p + 1) / 2)) * 5))
    | none => 2.5
  let K := A1 * 0.4 + A5 * 0.3 + A15 * 0.3
  let github_stars : Option ℝ := gh_repo_obj.bind GHRepo.stargazers_count
  let B1 := max 0 (min 5 (min 1 (github_stars.getD 0 / 50000) * 5))
  let community : Option CommunityData := cg_info.bind CGInfo.community_data
  let twitter_followers : Option ℝ := community.bind CommunityData.twitter_followers
  let reddit_subs : Option ℝ := community.bind CommunityData.reddit_subscribers
  let tw_norm := min 1 (twitter_followers.getD 0 / 5000000)
  let rd_norm := min 1 (reddit_subs.getD 0 / 5000000)
  let B6 := max 0 (min 5 ((tw_norm + rd_norm) / 2 * 5))
  let B5 : ℝ := 2.5
  let M := B1 * 0.4 + B6 * 0.4 + B5 * 0.2
  let r_tech : ℝ := r_tech_of gh_repo_obj
  let r_reg : ℝ := 0.3
  let r_fin : ℝ := r_fin_of candles
  let R := r_tech * 0.4 + r_reg * 0.35 + r_fin * 0.25
  let OTS := OTS_blend K M alpha
  OTS * (1 - R)

/-- The end-to-end scenario input of spec §8.6 / claim C1: marketCap 1.2e12,
24h volume 1e9, flat price history, 50000 stars, 0 open issues, 5e6 followers
on both platforms, profile Balanced. -/
def c1_result : ScoreResult :=
  compute_cmef_scores ("BTC-EUR") { last := 100, volume := 1000000000 }
    (some [{ open_ := 100, close := 100 }, { open_ := 100, close := 100 }])
    (some { market_data := some { market_cap_eur := some 1200000000000 }
            community_data := some { twitter_followers := some 5000000
                                     reddit_subscribers := some 5000000 } })
    (some { stargazers_count := some 50000, open_issues_count := some 0 })
    (alpha_map ("Balanced"))

/-- A bundle realizing K = 0.504 and M = 0.5 (claim C7): volume 336e6 gives
liquidity score 1.68; a price history collapsing to 0 gives performance
score 0; everything else absent. -/
def c7_result (profile : String) : ScoreResult :=
  compute_cmef_scores ("X-EUR") { last := 100, volume := 336000000 }
    (some [{ open_ := 100, close := 100 }, { open_ := 100, close := 0 }])
    none none (alpha_map profile)

/-- The bundle exhibiting compounded intermediate rounding (claim C8):
volume 1402000, everything else absent, profile Conservative. -/
def c8_ticker : Ticker := { last := 100, volume := 1402000 }

/-- Code-side result for the C8 bundle. -/
def c8_result : ScoreResult :=
  compute_cmef_scores ("X-EUR") c8_ticker none none none (alpha_map ("Conservative"))

end

end CmefX

namespace CmefX

noncomputable section

theorem rnd_of_fract_lt {q : ℝ} (h : Int.fract q < 1 / 2) : rnd q = ⌊q⌋ := by
  unfold rnd
  rw [if_neg (by intro ht; rw [ht] at h; linarith)]
  have hf : q - ⌊q⌋ = Int.fract q := Int.self_sub_floor q
  have h0 : (0 : ℝ) ≤ Int.fract q := Int.fract_nonneg q
  apply Int.floor_eq_iff.mpr
  constructor
  · linarith [Int.floor_le q]
  · linarith

theorem rnd_of_lt_fract {q : ℝ} (h : 1 / 2 < Int.fract q) : rnd q = ⌊q⌋ + 1 := by
  unfold rnd
  rw [if_neg (by intro ht; rw [ht] at h; linarith)]
  have hf : q - ⌊q⌋ = Int.fract q := Int.self_sub_floor q
  have h1 : Int.fract q < 1 := Int.fract_lt_one q
  apply Int.floor_eq_iff.mpr
  constructor
  · push_cast
    linarith
  · push_cast
    linarith

theorem rnd_tie {q : ℝ} (h : Int.fract q = 1 / 2) :
    rnd q = if Even ⌊q⌋ then ⌊q⌋ else ⌊q⌋ + 1 := by
  unfold rnd
  rw [if_pos h]

theorem floor_le_rnd (q : ℝ) : ⌊q⌋ ≤ rnd q := by
  rcases lt_trichotomy (Int.fract q) (1 / 2) with h | h | h
  · rw [rnd_of_fract_lt h]
  · rw [rnd_tie h]
    split <;> omega
  · rw [rnd_of_lt_fract h]
    omega

theorem rnd_le_floor_add_one (q : ℝ) : rnd q ≤ ⌊q⌋ + 1 := by
  rcases lt_trichotomy (Int.fract q) (1 / 2) with h | h | h
  · rw [rnd_of_fract_lt h]
    omega
  · rw [rnd_tie h]
    split <;> omega
  · rw [rnd_of_lt_fract h]

theorem rnd_le {q : ℝ} {n : ℤ} (h : q ≤ (n : ℝ)) : rnd q ≤ n := by
  have hf : q - ⌊q⌋ = Int.fract q := Int.self_sub_floor q
  rcases lt_trichotomy (Int.fract q) (1 / 2) with h1 | h1 | h1
  · rw [rnd_of_fract_lt h1]
    have := Int.floor_mono h
    simpa using this
  · rw [rnd_tie h1]
    have hlt : (⌊q⌋ : ℝ) < (n : ℝ) := by linarith
    have hlt2 : ⌊q⌋ < n := by exact_mod_cast hlt
    split <;> omega
  · rw [rnd_of_lt_fract h1]
    have hlt : (⌊q⌋ : ℝ) < (n : ℝ) - 1 / 2 := by linarith
    have hlt2 : (⌊q⌋ : ℝ) < (n : ℝ) := by linarith
    have : ⌊q⌋ < n := by exact_mod_cast hlt2
    omega

theorem le_rnd {q : ℝ} {n : ℤ} (h : (n : ℝ) ≤ q) : n ≤ rnd q :=
  le_trans (Int.le_floor.mpr h) (floor_le_rnd q)

theorem rnd_mono {x y : ℝ} (h : x ≤ y) : rnd x ≤ rnd y := by
  rcases lt_or_eq_of_le (Int.floor_mono h) with hf | hf
  · calc rnd x ≤ ⌊x⌋ + 1 := rnd_le_floor_add_one x
      _ ≤ ⌊y⌋ := by omega
      _ ≤ rnd y := floor_le_rnd y
  · have hx : x - ⌊x⌋ = Int.fract x := Int.self_sub_floor x
    have hy : y - ⌊y⌋ = Int.fract y := Int.self_sub_floor y
    have hcast : (⌊x⌋ : ℝ) = (⌊y⌋ : ℝ) := by exact_mod_cast hf
    have hfr : Int.fract x ≤ Int.fract y := by linarith
    rcases lt_trichotomy (Int.fract x) (1 / 2) with h1 | h1 | h1
    · rw [rnd_of_fract_lt h1, hf]
      exact floor_le_rnd y
    · rcases eq_or_lt_of_le (h1 ▸ hfr) with h2 | h2
      · rw [rnd_tie h1, rnd_tie h2.symm, hf]
      · rw [rnd_tie h1, rnd_of_lt_fract h2, hf]
        split <;> omega
    · have h2 : 1 / 2 < Int.fract y := lt_of_lt_of_le h1 hfr
      rw [rnd_of_lt_fract h1, rnd_of_lt_fract h2, hf]

theorem rnd_eq_of_near {q : ℝ} {n : ℤ} (h1 : (n : ℝ) - 1 / 2 < q)
    (h2 : q < (n : ℝ) + 1 / 2) : rnd q = n := by
  have hf : q - ⌊q⌋ = Int.fract q := Int.self_sub_floor q
  have h0 : (0 : ℝ) ≤ Int.fract q := Int.fract_nonneg q
  have hlt1 : Int.fract q < 1 := Int.fract_lt_one q
  rcases lt_trichotomy (Int.fract q) (1 / 2) with hc | hc | hc
  · rw [rnd_of_fract_lt hc]
    have ha : (n : ℝ) - 1 < (⌊q⌋ : ℝ) := by linarith
    have hb : (⌊q⌋ : ℝ) < (n : ℝ) + 1 := by linarith
    have ha2 : n - 1 < ⌊q⌋ := by exact_mod_cast ha
    have hb2 : ⌊q⌋ < n + 1 := by exact_mod_cast hb
    omega
  · exfalso
    have hq : q = (⌊q⌋ : ℝ) + 1 / 2 := by linarith
    have ha : (n : ℝ) - 1 < (⌊q⌋ : ℝ) := by linarith
    have hb : (⌊q⌋ : ℝ) < (n : ℝ) := by linarith
    have ha2 : n - 1 < ⌊q⌋ := by exact_mod_cast ha
    have hb2 : ⌊q⌋ < n := by exact_mod_cast hb
    omega
  · rw [rnd_of_lt_fract hc]
    have ha : (n : ℝ) - 2 < (⌊q⌋ : ℝ) := by linarith
    have hb : (⌊q⌋ : ℝ) < (n : ℝ) := by linarith
    have ha2 : n - 2 < ⌊q⌋ := by exact_mod_cast ha
    have hb2 : ⌊q⌋ < n := by exact_mod_cast hb
    omega

theorem rnd_tie_even {n : ℤ} (he : Even n) : rnd ((n : ℝ) + 1 / 2) = n := by
  have hfr : Int.fract ((n : ℝ) + 1 / 2) = 1 / 2 := by
    rw [add_comm, Int.fract_add_int]
    rw [Int.fract_eq_self.mpr (by norm_num)]
  rw [rnd_tie hfr]
  have hfl : ⌊(n : ℝ) + 1 / 2⌋ = n := by
    rw [add_comm, Int.floor_add_int]
    norm_num
  rw [hfl, if_pos he]

theorem rnd_intCast (n : ℤ) : rnd ((n : ℝ)) = n := by
  apply rnd_eq_of_near <;> norm_num

theorem round3_mono {x y : ℝ} (h : x ≤ y) : round3 x ≤ round3 y := by
  unfold round3
  have h1 : x * 1000 ≤ y * 1000 := by linarith
  have h2 : rnd (x * 1000) ≤ rnd (y * 1000) := rnd_mono h1
  have h3 : ((rnd (x * 1000) : ℝ)) ≤ ((rnd (y * 1000) : ℝ)) := by exact_mod_cast h2
  linarith

theorem round3_le {x : ℝ} {n : ℤ} (h : x * 1000 ≤ (n : ℝ)) :
    round3 x ≤ (n : ℝ) / 1000 := by
  unfold round3
  have h2 : rnd (x * 1000) ≤ n := rnd_le h
  have h3 : ((rnd (x * 1000) : ℝ)) ≤ ((n : ℝ)) := by exact_mod_cast h2
  linarith

theorem le_round3 {x : ℝ} {n : ℤ} (h : (n : ℝ) ≤ x * 1000) :
    (n : ℝ) / 1000 ≤ round3 x := by
  unfold round3
  have h2 : n ≤ rnd (x * 1000) := le_rnd h
  have h3 : ((n : ℝ)) ≤ ((rnd (x * 1000) : ℝ)) := by exact_mod_cast h2
  linarith

theorem round3_eq_of_near {x : ℝ} {n : ℤ} (h1 : (n : ℝ) - 1 / 2 < x * 1000)
    (h2 : x * 1000 < (n : ℝ) + 1 / 2) : round3 x = (n : ℝ) / 1000 := by
  unfold round3
  rw [rnd_eq_of_near h1 h2]

theorem round3_tie_even {x : ℝ} {n : ℤ} (hx : x * 1000 = (n : ℝ) + 1 / 2)
    (he : Even n) : round3 x = (n : ℝ) / 1000 := by
  unfold round3
  rw [hx, rnd_tie_even he]

theorem round3_nonneg {x : ℝ} (h : 0 ≤ x) : 0 ≤ round3 x := by
  have := le_round3 (x := x) (n := 0) (by push_cast; linarith)
  simpa using this

theorem round3_le_five {x : ℝ} (h : x ≤ 5) : round3 x ≤ 5 := by
  have := round3_le (x := x) (n := 5000) (by push_cast; linarith)
  norm_num at this
  exact this

theorem round3_le_one {x : ℝ} (h : x ≤ 1) : round3 x ≤ 1 := by
  have := round3_le (x := x) (n := 1000) (by push_cast; linarith)
  norm_num at this
  exact this

theorem round3_idem (x : ℝ) : round3 (round3 x) = round3 x := by
  unfold round3
  rw [div_mul_cancel₀ _ (by norm_num : (1000 : ℝ) ≠ 0), rnd_intCast]

theorem round3_eq_self {x : ℝ} {n : ℤ} (h : x * 1000 = (n : ℝ)) : round3 x = x := by
  unfold round3
  rw [h, rnd_intCast]
  linarith

theorem normalize_log_self {x : ℝ} (h : 1 < x) : normalize_log x x = 1 := by
  unfold normalize_log
  rw [if_neg (by push_neg; linarith)]
  rw [div_self (ne_of_gt (Real.logb_pos (by norm_num) h))]
  norm_num

theorem compute_A1_eq (market : String) (ticker : Ticker)
    (candles : Option (List Candle)) (cg_info : Option CGInfo)
    (gh_repo_obj : Option GHRepo) (alpha : ℝ) :
    (compute_cmef_scores market ticker candles cg_info gh_repo_obj
        alpha).trace.K_components.A1_market_cap =
      to_score_0_5 (normalize_log
        (((cg_info.bind CGInfo.market_data).bind MarketData.market_cap_eur).getD 0)
        1200000000000) := rfl

theorem compute_A5_eq (market : String) (ticker : Ticker)
    (candles : Option (List Candle)) (cg_info : Option CGInfo)
    (gh_repo_obj : Option GHRepo) (alpha : ℝ) :
    (compute_cmef_scores market ticker candles cg_info gh_repo_obj
        alpha).trace.K_components.A5_volume =
      to_score_0_5 (min 1 (ticker.volume / 1000000000)) := rfl

theorem compute_A15_eq (market : String) (ticker : Ticker)
    (candles : Option (List Candle)) (cg_info : Option CGInfo)
    (gh_repo_obj : Option GHRepo) (alpha : ℝ) :
    (compute_cmef_scores market ticker candles cg_info gh_repo_obj
        alpha).trace.K_components.A15_perf = A15_of (pct_30d_of candles) := rfl

theorem compute_K_eq (market : String) (ticker : Ticker)
    (candles : Option (List Candle)) (cg_info : Option CGInfo)
    (gh_repo_obj : Option GHRepo) (alpha : ℝ) :
    (compute_cmef_scores market ticker candles cg_info gh_repo_obj alpha).K =
      round3 ((compute_cmef_scores market ticker candles cg_info gh_repo_obj
          alpha).trace.K_components.A1_market_cap * 0.4 +
        (compute_cmef_scores market ticker candles cg_info gh_repo_obj
          alpha).trace.K_components.A5_volume * 0.3 +
        (compute_cmef_scores market ticker candles cg_info gh_repo_obj
          alpha).trace.K_components.A15_perf * 0.3) := rfl

theorem compute_B1_eq (market : String) (ticker : Ticker)
    (candles : Option (List Candle)) (cg_info : Option CGInfo)
    (gh_repo_obj : Option GHRepo) (alpha : ℝ) :
    (compute_cmef_scores market ticker candles cg_info gh_repo_obj
        alpha).trace.M_components.B1_github =
      to_score_0_5 (min 1 ((gh_repo_obj.bind GHRepo.stargazers_count).getD 0 / 50000)) := rfl

theorem compute_B6_eq (market : String) (ticker : Ticker)
    (candles : Option (List Candle)) (cg_info : Option CGInfo)
    (gh_repo_obj : Option GHRepo) (alpha : ℝ) :
    (compute_cmef_scores market ticker candles cg_info gh_repo_obj
        alpha).trace.M_components.B6_community =
      to_score_0_5
        ((min 1 (((cg_info.bind CGInfo.community_data).bind
              CommunityData.twitter_followers).getD 0 / 5000000) +
          min 1 (((cg_info.bind CGInfo.community_data).bind
              CommunityData.reddit_subscribers).getD 0 / 5000000)) / 2) := rfl

theorem compute_B5_eq (market : String) (ticker : Ticker)
    (candles : Option (List Candle)) (cg_info : Option CGInfo)
    (gh_repo_obj : Option GHRepo) (alpha : ℝ) :
    (compute_cmef_scores market ticker candles cg_info gh_repo_obj
        alpha).trace.M_components.B5_incentives = 2.5 := rfl

theorem compute_M_eq (market : String) (ticker : Ticker)
    (candles : Option (List Candle)) (cg_info : Option CGInfo)
    (gh_repo_obj : Option GHRepo) (alpha : ℝ) :
    (compute_cmef_scores market ticker candles cg_info gh_repo_obj alpha).M =
      round3 ((compute_cmef_scores market ticker candles cg_info gh_repo_obj
          alpha).trace.M_components.B1_github * 0.4 +
        (compute_cmef_scores market ticker candles cg_info gh_repo_obj
          alpha).trace.M_components.B6_community * 0.4 +
        (compute_cmef_scores market ticker candles cg_info gh_repo_obj
          alpha).trace.M_components.B5_incentives * 0.2) := rfl

theorem compute_rtech_eq (market : String) (ticker : Ticker)
    (candles : Option (List Candle)) (cg_info : Option CGInfo)
    (gh_repo_obj : Option GHRepo) (alpha : ℝ) :
    (compute_cmef_scores market ticker candles cg_info gh_repo_obj
        alpha).trace.r_tech_calc = r_tech_of gh_repo_obj := rfl

theorem compute_rfin_eq (market : String) (ticker : Ticker)
    (candles : Option (List Candle)) (cg_info : Option CGInfo)
    (gh_repo_obj : Option GHRepo) (alpha : ℝ) :
    (compute_cmef_scores market ticker candles cg_info gh_repo_obj
        alpha).trace.r_fin_calc = r_fin_of candles := rfl

theorem compute_R_eq (market : String) (ticker : Ticker)
    (candles : Option (List Candle)) (cg_info : Option CGInfo)
    (gh_repo_obj : Option GHRepo) (alpha : ℝ) :
    (compute_cmef_scores market ticker candles cg_info gh_repo_obj alpha).R =
      round3 (r_tech_of gh_repo_obj * 0.4 + 0.3 * 0.35 + r_fin_of candles * 0.25) := rfl

theorem compute_OTS_eq (market : String) (ticker : Ticker)
    (candles : Option (List Candle)) (cg_info : Option CGInfo)
    (gh_repo_obj : Option GHRepo) (alpha : ℝ) :
    (compute_cmef_scores market ticker candles cg_info gh_repo_obj alpha).OTS =
      round3 (OTS_blend
        (compute_cmef_scores market ticker candles cg_info gh_repo_obj alpha).K
        (compute_cmef_scores market ticker candles cg_info gh_repo_obj alpha).M
        alpha) := rfl

theorem compute_RAR_eq (market : String) (ticker : Ticker)
    (candles : Option (List Candle)) (cg_info : Option CGInfo)
    (gh_repo_obj : Option GHRepo) (alpha : ℝ) :
    (compute_cmef_scores market ticker candles cg_info gh_repo_obj alpha).RAR =
      round3 ((compute_cmef_scores market ticker candles cg_info gh_repo_obj alpha).OTS *
        (1 - (compute_cmef_scores market ticker candles cg_info gh_repo_obj alpha).R)) := rfl

theorem to_score_0_5_nonneg (v : ℝ) : 0 ≤ to_score_0_5 v :=
  round3_nonneg (le_max_left 0 _)

theorem to_score_0_5_le_five (v : ℝ) : to_score_0_5 v ≤ 5 :=
  round3_le_five (max_le (by norm_num) (min_le_left 5 _))

theorem A15_of_nonneg (p : Option ℝ) : 0 ≤ A15_of p := by
  cases p with
  | none => norm_num [A15_of]
  | some v => exact to_score_0_5_nonneg _

theorem A15_of_le_five (p : Option ℝ) : A15_of p ≤ 5 := by
  cases p with
  | none => norm_num [A15_of]
  | some v => exact to_score_0_5_le_five _

theorem r_tech_of_mem (gh : Option GHRepo) :
    0 ≤ r_tech_of gh ∧ r_tech_of gh ≤ 0.9 := by
  unfold r_tech_of
  rcases gh with _ | gh
  · norm_num
  simp only
  rcases hs : gh.stargazers_count with _ | s
  · norm_num
  simp only
  split_ifs with h
  · constructor
    · apply le_min (by norm_num)
      exact le_trans (by norm_num : (0 : ℝ) ≤ 0.1) (le_max_left _ _)
    · exact min_le_left _ _
  · norm_num

theorem r_fin_of_mem (candles : Option (List Candle)) :
    0 ≤ r_fin_of candles ∧ r_fin_of candles ≤ 0.9 := by
  unfold r_fin_of
  rcases candles with _ | cs
  · norm_num
  simp only
  split
  · split
    · have h0 : (0 : ℝ) ≤ np_std (np_diff_div (cs.map Candle.close)) * Real.sqrt 365 / 3 := by
        apply div_nonneg _ (by norm_num)
        exact mul_nonneg (Real.sqrt_nonneg _) (Real.sqrt_nonneg _)
      have hmin0 : (0 : ℝ) ≤ min 1 (np_std (np_diff_div (cs.map Candle.close)) * Real.sqrt 365 / 3) :=
        le_min (by norm_num) h0
      have hmin1 : min 1 (np_std (np_diff_div (cs.map Candle.close)) * Real.sqrt 365 / 3) ≤ 1 :=
        min_le_left _ _
      constructor <;> nlinarith
    · norm_num
  · norm_num

theorem alpha_map_mem (profile : String) :
    0 ≤ alpha_map profile ∧ alpha_map profile ≤ 1 := by
  unfold alpha_map
  split_ifs <;> norm_num

/-- Shared bounds for every field of a computed ScoreResult, for any alpha
in [0,1]. -/
theorem compute_bounds (market : String) (ticker : Ticker)
    (candles : Option (List Candle)) (cg_info : Option CGInfo)
    (gh_repo_obj : Option GHRepo) (alpha : ℝ)
    (ha0 : 0 ≤ alpha) (ha1 : alpha ≤ 1) :
    (0 ≤ (compute_cmef_scores market ticker candles cg_info gh_repo_obj alpha).K ∧
      (compute_cmef_scores market ticker candles cg_info gh_repo_obj alpha).K ≤ 5) ∧
    (0 ≤ (compute_cmef_scores market ticker candles cg_info gh_repo_obj alpha).M ∧
      (compute_cmef_scores market ticker candles cg_info gh_repo_obj alpha).M ≤ 5) ∧
    (0 ≤ (compute_cmef_scores market ticker candles cg_info gh_repo_obj alpha).R ∧
      (compute_cmef_scores market ticker candles cg_info gh_repo_obj alpha).R ≤ 1) ∧
    (0 ≤ (compute_cmef_scores market ticker candles cg_info gh_repo_obj alpha).OTS ∧
      (compute_cmef_scores market ticker candles cg_info gh_repo_obj alpha).OTS ≤ 5) ∧
    (0 ≤ (compute_cmef_scores market ticker candles cg_info gh_repo_obj alpha).RAR ∧
      (compute_cmef_scores market ticker candles cg_info gh_repo_obj alpha).RAR ≤ 5) := by
  have hA1l := to_score_0_5_nonneg (normalize_log
    (((cg_info.bind CGInfo.market_data).bind MarketData.market_cap_eur).getD 0) 1200000000000)
  have hA1r := to_score_0_5_le_five (normalize_log
    (((cg_info.bind CGInfo.market_data).bind MarketData.market_cap_eur).getD 0) 1200000000000)
  have hA5l := to_score_0_5_nonneg (min 1 (ticker.volume / 1000000000))
  have hA5r := to_score_0_5_le_five (min 1 (ticker.volume / 1000000000))
  have hA15l := A15_of_nonneg (pct_30d_of candles)
  have hA15r := A15_of_le_five (pct_30d_of candles)
  have hK : 0 ≤ (compute_cmef_scores market ticker candles cg_info gh_repo_obj alpha).K ∧
      (compute_cmef_scores market ticker candles cg_info gh_repo_obj alpha).K ≤ 5 := by
    rw [compute_K_eq, compute_A1_eq, compute_A5_eq, compute_A15_eq]
    constructor
    · apply round3_nonneg
      nlinarith
    · apply round3_le_five
      nlinarith
  have hB1l := to_score_0_5_nonneg (min 1 ((gh_repo_obj.bind GHRepo.stargazers_count).getD 0 / 50000))
  have hB1r := to_score_0_5_le_five (min 1 ((gh_repo_obj.bind GHRepo.stargazers_count).getD 0 / 50000))
  have hB6l := to_score_0_5_nonneg
    ((min 1 (((cg_info.bind CGInfo.community_data).bind
          CommunityData.twitter_followers).getD 0 / 5000000) +
      min 1 (((cg_info.bind CGInfo.community_data).bind
          CommunityData.reddit_subscribers).getD 0 / 5000000)) / 2)
  have hB6r := to_score_0_5_le_five
    ((min 1 (((cg_info.bind CGInfo.community_data).bind
          CommunityData.twitter_followers).getD 0 / 5000000) +
      min 1 (((cg_info.bind CGInfo.community_data).bind
          CommunityData.reddit_subscribers).getD 0 / 5000000)) / 2)
  have hM : 0 ≤ (compute_cmef_scores market ticker candles cg_info gh_repo_obj alpha).M ∧
      (compute_cmef_scores market ticker candles cg_info gh_repo_obj alpha).M ≤ 5 := by
    rw [compute_M_eq, compute_B1_eq, compute_B6_eq, compute_B5_eq]
    constructor
    · apply round3_nonneg
      nlinarith
    · apply round3_le_five
      nlinarith
  have htech := r_tech_of_mem gh_repo_obj
  have hfin := r_fin_of_mem candles
  have hR : 0 ≤ (compute_cmef_scores market ticker candles cg_info gh_repo_obj alpha).R ∧
      (compute_cmef_scores market ticker candles cg_info gh_repo_obj alpha).R ≤ 1 := by
    rw [compute_R_eq]
    constructor
    · apply round3_nonneg
      nlinarith [htech.1, htech.2, hfin.1, hfin.2]
    · apply round3_le_one
      nlinarith [htech.1, htech.2, hfin.1, hfin.2]
  have hOTS : 0 ≤ (compute_cmef_scores market ticker candles cg_info gh_repo_obj alpha).OTS ∧
      (compute_cmef_scores market ticker candles cg_info gh_repo_obj alpha).OTS ≤ 5 := by
    rw [compute_OTS_eq]
    unfold OTS_blend
    constructor
    · apply round3_nonneg
      nlinarith [hK.1, hK.2, hM.1, hM.2]
    · apply round3_le_five
      nlinarith [hK.1, hK.2, hM.1, hM.2]
  have hRAR : 0 ≤ (compute_cmef_scores market ticker candles cg_info gh_repo_obj alpha).RAR ∧
      (compute_cmef_scores market ticker candles cg_info gh_repo_obj alpha).RAR ≤ 5 := by
    rw [compute_RAR_eq]
    constructor
    · apply round3_nonneg
      nlinarith [hOTS.1, hOTS.2, hR.1, hR.2]
    · apply round3_le_five
      nlinarith [hOTS.1, hOTS.2, hR.1, hR.2]
  exact ⟨hK, hM, hR, hOTS, hRAR⟩

theorem alpha_map_conservative : alpha_map ("Conservative") = 0.7 := by
  unfold alpha_map
  rw [if_pos rfl]

theorem alpha_map_balanced : alpha_map ("Balanced") = 0.6 := by
  unfold alpha_map
  rw [if_neg (by decide), if_pos rfl]

theorem alpha_map_growth : alpha_map ("Growth") = 0.5 := by
  unfold alpha_map
  rw [if_neg (by decide), if_neg (by decide), if_pos rfl]

theorem to_score_0_5_one : to_score_0_5 1 = 5 := by
  unfold to_score_0_5
  rw [round3_eq_of_near (n := 5000) (by norm_num [min_def, max_def])
    (by norm_num [min_def, max_def])]
  norm_num

theorem recommendation_lt_20 {r : ℝ} (h : r < 20) : recommendation r = ("Avoid") := by
  unfold recommendation
  rw [if_neg (by intro hc; linarith), if_neg (by intro hc; linarith),
    if_neg (by intro hc; linarith), if_neg (by intro hc; linarith)]

theorem c1_pct : pct_30d_of (some [{ open_ := 100, close := 100 },
    { open_ := 100, close := 100 }]) = some 0 := by
  unfold pct_30d_of
  simp [List.head?, List.getLast?]

theorem c1_A1 : c1_result.trace.K_components.A1_market_cap = 5 := by
  unfold c1_result
  rw [compute_A1_eq]
  simp only [Option.some_bind, Option.getD_some]
  rw [normalize_log_self (by norm_num)]
  exact to_score_0_5_one

theorem c1_A5 : c1_result.trace.K_components.A5_volume = 5 := by
  unfold c1_result
  rw [compute_A5_eq]
  norm_num
  exact to_score_0_5_one

theorem c1_A15 : c1_result.trace.K_components.A15_perf = 2.5 := by
  unfold c1_result
  rw [compute_A15_eq, c1_pct]
  unfold A15_of to_score_0_5
  norm_num [min_def, max_def]
  rw [round3_eq_of_near (n := 2500) (by norm_num) (by norm_num)]
  norm_num

theorem c1_K : c1_result.K = 4.25 := by
  have hK : c1_result.K = round3 (c1_result.trace.K_components.A1_market_cap * 0.4 +
      c1_result.trace.K_components.A5_volume * 0.3 +
      c1_result.trace.K_components.A15_perf * 0.3) := compute_K_eq _ _ _ _ _ _
  rw [hK, c1_A1, c1_A5, c1_A15]
  rw [round3_eq_of_near (n := 4250) (by norm_num) (by norm_num)]
  norm_num

theorem c1_B1 : c1_result.trace.M_components.B1_github = 5 := by
  unfold c1_result
  rw [compute_B1_eq]
  simp only [Option.some_bind, Option.getD_some]
  norm_num
  exact to_score_0_5_one

theorem c1_B6 : c1_result.trace.M_components.B6_community = 5 := by
  unfold c1_result
  rw [compute_B6_eq]
  simp only [Option.some_bind, Option.getD_some]
  norm_num
  exact to_score_0_5_one

theorem c1_B5 : c1_result.trace.M_components.B5_incentives = 2.5 :=
  compute_B5_eq _ _ _ _ _ _

theorem c1_M : c1_result.M = 4.5 := by
  have hM : c1_result.M = round3 (c1_result.trace.M_components.B1_github * 0.4 +
      c1_result.trace.M_components.B6_community * 0.4 +
      c1_result.trace.M_components.B5_incentives * 0.2) := compute_M_eq _ _ _ _ _ _
  rw [hM, c1_B1, c1_B6, c1_B5]
  rw [round3_eq_of_near (n := 4500) (by norm_num) (by norm_num)]
  norm_num

theorem c1_rtech_of :
    r_tech_of (some { stargazers_count := some 50000, open_issues_count := some 0 }) = 0.2 := by
  unfold r_tech_of
  norm_num [min_def, max_def]

theorem c1_rfin_of : r_fin_of (some [{ open_ := 100, close := 100 },
    { open_ := 100, close := 100 }]) = 0.1 := by
  unfold r_fin_of np_diff_div
  norm_num [List.zipWith]
  unfold np_std mean
  norm_num [Real.sqrt_zero]

theorem c1_trace_rtech : c1_result.trace.r_tech_calc = 0.2 := by
  unfold c1_result
  rw [compute_rtech_eq, c1_rtech_of]

theorem c1_trace_rfin : c1_result.trace.r_fin_calc = 0.1 := by
  unfold c1_result
  rw [compute_rfin_eq, c1_rfin_of]

theorem c1_R : c1_result.R = 0.21 := by
  unfold c1_result
  rw [compute_R_eq, c1_rtech_of, c1_rfin_of]
  rw [round3_eq_of_near (n := 210) (by norm_num) (by norm_num)]
  norm_num

theorem c1_OTS : c1_result.OTS = 4.35 := by
  have h : c1_result.OTS = round3 (OTS_blend c1_result.K c1_result.M
      (alpha_map ("Balanced"))) := compute_OTS_eq _ _ _ _ _ _
  rw [h, c1_K, c1_M, alpha_map_balanced]
  unfold OTS_blend
  rw [round3_eq_of_near (n := 4350) (by norm_num) (by norm_num)]
  norm_num

theorem c1_RAR : c1_result.RAR = 3.436 := by
  have h : c1_result.RAR = round3 (c1_result.OTS * (1 - c1_result.R)) :=
    compute_RAR_eq _ _ _ _ _ _
  rw [h, c1_OTS, c1_R]
  rw [round3_tie_even (n := 3436) (by norm_num) (by decide)]
  norm_num

theorem normalize_log_nonpos {x ref : ℝ} (h : x ≤ 0) : normalize_log x ref = 0 := by
  unfold normalize_log
  rw [if_pos h]

theorem to_score_0_5_zero : to_score_0_5 0 = 0 := by
  unfold to_score_0_5
  rw [round3_eq_of_near (n := 0) (by norm_num [min_def, max_def])
    (by norm_num [min_def, max_def])]
  norm_num

theorem to_score_0_5_mono {u v : ℝ} (h : u ≤ v) : to_score_0_5 u ≤ to_score_0_5 v := by
  unfold to_score_0_5
  apply round3_mono
  apply max_le_max le_rfl
  apply min_le_min le_rfl
  linarith

theorem normalize_log_mono {x y ref : ℝ} (href : 1 < ref) (h : x ≤ y) :
    normalize_log x ref ≤ normalize_log y ref := by
  unfold normalize_log
  by_cases hx : x ≤ 0
  · rw [if_pos hx]
    split
    · exact le_refl 0
    · exact le_min (by norm_num) (le_max_left 0 _)
  · have hx0 : 0 < x := not_le.mp hx
    have hy0 : 0 < y := lt_of_lt_of_le hx0 h
    rw [if_neg hx, if_neg (by intro hy; linarith)]
    have hrefpos : 0 < Real.logb 10 ref := Real.logb_pos (by norm_num) href
    have hlog : Real.logb 10 x ≤ Real.logb 10 y :=
      Real.logb_le_logb_of_le (by norm_num) hx0 h
    apply min_le_min le_rfl
    apply max_le_max le_rfl
    exact (div_le_div_iff_of_pos_right hrefpos).mpr hlog

theorem c7_pct : pct_30d_of (some [{ open_ := 100, close := 100 },
    { open_ := 100, close := 0 }]) = some (-1) := by
  unfold pct_30d_of
  simp [List.head?, List.getLast?]

theorem c7_K_any (alpha : ℝ) :
    (compute_cmef_scores ("X-EUR") { last := 100, volume := 336000000 }
      (some [{ open_ := 100, close := 100 }, { open_ := 100, close := 0 }])
      none none alpha).K = 0.504 := by
  rw [compute_K_eq, compute_A1_eq, compute_A5_eq, compute_A15_eq, c7_pct]
  simp only [Option.none_bind, Option.getD_none]
  rw [normalize_log_nonpos le_rfl, to_score_0_5_zero]
  simp only [A15_of]
  have hA15 : to_score_0_5 (max 0 (min 1 ((-1 + 1) / 2))) = 0 := by
    norm_num
    exact to_score_0_5_zero
  rw [hA15]
  have hA5 : to_score_0_5 (min 1 ((336000000 : ℝ) / 1000000000)) = 1.68 := by
    unfold to_score_0_5
    rw [round3_eq_of_near (n := 1680) (by norm_num [min_def, max_def])
      (by norm_num [min_def, max_def])]
    norm_num
  rw [hA5]
  rw [round3_eq_of_near (n := 504) (by norm_num) (by norm_num)]
  norm_num

theorem c7_M_any (alpha : ℝ) :
    (compute_cmef_scores ("X-EUR") { last := 100, volume := 336000000 }
      (some [{ open_ := 100, close := 100 }, { open_ := 100, close := 0 }])
      none none alpha).M = 0.5 := by
  rw [compute_M_eq, compute_B1_eq, compute_B6_eq, compute_B5_eq]
  simp only [Option.none_bind, Option.getD_none]
  have hz : to_score_0_5 (min 1 ((0 : ℝ) / 50000)) = 0 := by
    norm_num
    exact to_score_0_5_zero
  have hz2 : to_score_0_5 ((min 1 ((0 : ℝ) / 5000000) + min 1 ((0 : ℝ) / 5000000)) / 2) = 0 := by
    norm_num
    exact to_score_0_5_zero
  rw [hz, hz2]
  rw [round3_eq_of_near (n := 500) (by norm_num) (by norm_num)]
  norm_num

theorem c7_K (profile : String) : (c7_result profile).K = 0.504 := by
  unfold c7_result
  exact c7_K_any _

theorem c7_M (profile : String) : (c7_result profile).M = 0.5 := by
  unfold c7_result
  exact c7_M_any _

theorem c7_OTS_balanced : (c7_result ("Balanced")).OTS = 0.502 := by
  have h : (c7_result ("Balanced")).OTS = round3 (OTS_blend (c7_result ("Balanced")).K
      (c7_result ("Balanced")).M (alpha_map ("Balanced"))) := compute_OTS_eq _ _ _ _ _ _
  rw [h, c7_K, c7_M, alpha_map_balanced]
  unfold OTS_blend
  rw [round3_eq_of_near (n := 502) (by norm_num) (by norm_num)]
  norm_num

theorem c7_OTS_growth : (c7_result ("Growth")).OTS = 0.502 := by
  have h : (c7_result ("Growth")).OTS = round3 (OTS_blend (c7_result ("Growth")).K
      (c7_result ("Growth")).M (alpha_map ("Growth"))) := compute_OTS_eq _ _ _ _ _ _
  rw [h, c7_K, c7_M, alpha_map_growth]
  unfold OTS_blend
  rw [round3_eq_of_near (n := 502) (by norm_num) (by norm_num)]
  norm_num

theorem c8_K : c8_result.K = 0.752 := by
  unfold c8_result c8_ticker
  rw [compute_K_eq, compute_A1_eq, compute_A5_eq, compute_A15_eq]
  simp only [Option.none_bind, Option.getD_none]
  rw [normalize_log_nonpos le_rfl, to_score_0_5_zero]
  have hA5 : to_score_0_5 (min 1 ((1402000 : ℝ) / 1000000000)) = 0.007 := by
    unfold to_score_0_5
    rw [round3_eq_of_near (n := 7) (by norm_num [min_def, max_def])
      (by norm_num [min_def, max_def])]
    norm_num
  rw [hA5]
  have hA15 : A15_of (pct_30d_of none) = 2.5 := rfl
  rw [hA15]
  rw [round3_eq_of_near (n := 752) (by norm_num) (by norm_num)]
  norm_num

theorem c8_M : c8_result.M = 0.5 := by
  unfold c8_result c8_ticker
  rw [compute_M_eq, compute_B1_eq, compute_B6_eq, compute_B5_eq]
  simp only [Option.none_bind, Option.getD_none]
  have hz : to_score_0_5 (min 1 ((0 : ℝ) / 50000)) = 0 := by
    norm_num
    exact to_score_0_5_zero
  have hz2 : to_score_0_5 ((min 1 ((0 : ℝ) / 5000000) + min 1 ((0 : ℝ) / 5000000)) / 2) = 0 := by
    norm_num
    exact to_score_0_5_zero
  rw [hz, hz2]
  rw [round3_eq_of_near (n := 500) (by norm_num) (by norm_num)]
  norm_num

theorem c8_R : c8_result.R = 0.405 := by
  unfold c8_result c8_ticker
  rw [compute_R_eq]
  have h1 : r_tech_of none = 0.5 := rfl
  have h2 : r_fin_of none = 0.4 := rfl
  rw [h1, h2]
  rw [round3_eq_of_near (n := 405) (by norm_num) (by norm_num)]
  norm_num

theorem c8_OTS : c8_result.OTS = 0.676 := by
  have h : c8_result.OTS = round3 (OTS_blend c8_result.K c8_result.M
      (alpha_map ("Conservative"))) := compute_OTS_eq _ _ _ _ _ _
  rw [h, c8_K, c8_M, alpha_map_conservative]
  unfold OTS_blend
  rw [round3_eq_of_near (n := 676) (by norm_num) (by norm_num)]
  norm_num

theorem c8_RAR : c8_result.RAR = 0.402 := by
  have h : c8_result.RAR = round3 (c8_result.OTS * (1 - c8_result.R)) :=
    compute_RAR_eq _ _ _ _ _ _
  rw [h, c8_OTS, c8_R]
  rw [round3_eq_of_near (n := 402) (by norm_num) (by norm_num)]
  norm_num

theorem c8_unrounded_round3 :
    round3 (unrounded_RAR c8_ticker none none none (alpha_map ("Conservative"))) = 0.403 := by
  rw [alpha_map_conservative]
  unfold unrounded_RAR c8_ticker
  simp only [Option.none_bind, Option.getD_none, pct_30d_of, A15_of, r_tech_of, r_fin_of]
  rw [normalize_log_nonpos le_rfl]
  norm_num [min_def, max_def]
  unfold OTS_blend
  rw [round3_eq_of_near (n := 403) (by norm_num) (by norm_num)]
  norm_num

/-- C1 (amended): on the spec §8.6 scenario (marketCap 1.2e12, volume 1e9,
flat price history, 50000 stars, 0 issues, 5e6 followers on each platform,
profile Balanced) the code yields marketCapScore 5, liquidityScore 5,
performance30dScore 2.5, K = 4.25, developerScore 5, communityScore 5,
incentivesScore 2.5, M = 4.5, technicalRisk 0.2, financialRisk 0.1,
R = round(0.4*0.2+0.35*0.3+0.25*0.1, 3) = 0.21 (not 0.2125 as the claim's
arithmetic says), OTS = 4.35, RAR = round(4.35*0.79, 3) = 3.436 (not 3.426),
and the recommendation rendered is "Avoid" (not "Core"), because the ladder
compares RAR with 65/50/35/20. -/
theorem C1_scenario_amended :
    c1_result.trace.K_components.A1_market_cap = 5 ∧
    c1_result.trace.K_components.A5_volume = 5 ∧
    c1_result.trace.K_components.A15_perf = 2.5 ∧
    c1_result.K = 4.25 ∧
    c1_result.trace.M_components.B1_github = 5 ∧
    c1_result.trace.M_components.B6_community = 5 ∧
    c1_result.trace.M_components.B5_incentives = 2.5 ∧
    c1_result.M = 4.5 ∧
    c1_result.trace.r_tech_calc = 0.2 ∧
    c1_result.trace.r_fin_calc = 0.1 ∧
    c1_result.R = 0.21 ∧
    c1_result.OTS = 4.35 ∧
    c1_result.RAR = 3.436 ∧
    recommendation c1_result.RAR = ("Avoid") :=
  ⟨c1_A1, c1_A5, c1_A15, c1_K, c1_B1, c1_B6, c1_B5, c1_M, c1_trace_rtech,
    c1_trace_rfin, c1_R, c1_OTS, c1_RAR,
    by rw [c1_RAR]; exact recommendation_lt_20 (by norm_num)⟩

/-- C1 (counterexample to the claim as stated): on the very scenario of the
claim, R is 0.21, not 0.2125 (the claim's own weighted sum is miscomputed:
0.4*0.2+0.35*0.3+0.25*0.1 = 0.21), and the recommendation is not "Core". -/
theorem C1_scenario_counterexample :
    c1_result.R ≠ 0.2125 ∧ recommendation c1_result.RAR ≠ ("Core") := by
  constructor
  · rw [c1_R]
    norm_num
  · rw [c1_RAR, recommendation_lt_20 (by norm_num)]
    decide

/-- C2 (code bug): the recommendation ladder in the source compares RAR — a
value that is always in [0,5] — against 65/50/35/20 and never consults the
profile; at the spec's own scenario RAR (3.436, which the 0-5-scale table of
the spec maps to "Core" for every profile) the code renders "Avoid". -/
theorem C2_ladder_at_failing_input :
    c1_result.RAR = 3.436 ∧ recommendation c1_result.RAR = ("Avoid") :=
  ⟨c1_RAR, by rw [c1_RAR]; exact recommendation_lt_20 (by norm_num)⟩

/-- C3: for every input on which scoring proceeds (ticker present, price > 0)
and every profile string, the generated report carries the recommendation
"Avoid": RAR ≤ 5 < 20, so every branch of the 65/50/35/20 ladder fails. -/
theorem C3_recommendation_always_avoid (best_market : String) (t : Ticker)
    (candles : Option (List Candle)) (cg_info : Option CGInfo)
    (gh_obj : Option GHRepo) (profile : String) (h : 0 < t.last) :
    generate_report best_market (some t) candles cg_info gh_obj profile =
      Except.ok { results := compute_cmef_scores best_market t candles cg_info
                    gh_obj (alpha_map profile),
                  rec_ := ("Avoid") } := by
  simp only [generate_report]
  rw [if_neg (not_le.mpr h)]
  have hb := compute_bounds best_market t candles cg_info gh_obj (alpha_map profile)
    (alpha_map_mem profile).1 (alpha_map_mem profile).2
  rw [recommendation_lt_20 (by linarith [hb.2.2.2.2.2])]

/-- C3 witness: concrete run with price 100. -/
theorem C3_witness :
    (0 : ℝ) < 100 ∧
    generate_report ("BTC-EUR") (some { last := 100, volume := 0 }) none none none
        ("Balanced") =
      Except.ok { results := compute_cmef_scores ("BTC-EUR") { last := 100, volume := 0 }
                    none none none (alpha_map ("Balanced")),
                  rec_ := ("Avoid") } :=
  ⟨by norm_num,
    C3_recommendation_always_avoid ("BTC-EUR") { last := 100, volume := 0 } none none none
      ("Balanced") (by norm_num)⟩

/-- C4: for every input bundle (every combination of present and absent
optional fields, any volume, any price history) and every profile string, the
computed scores satisfy K ∈ [0,5], M ∈ [0,5], R ∈ [0,1], OTS ∈ [0,5] and
RAR ∈ [0,5]. -/
theorem C4_bounds (market : String) (ticker : Ticker)
    (candles : Option (List Candle)) (cg_info : Option CGInfo)
    (gh_repo_obj : Option GHRepo) (profile : String) :
    (0 ≤ (compute_cmef_scores market ticker candles cg_info gh_repo_obj
        (alpha_map profile)).K ∧
      (compute_cmef_scores market ticker candles cg_info gh_repo_obj
        (alpha_map profile)).K ≤ 5) ∧
    (0 ≤ (compute_cmef_scores market ticker candles cg_info gh_repo_obj
        (alpha_map profile)).M ∧
      (compute_cmef_scores market ticker candles cg_info gh_repo_obj
        (alpha_map profile)).M ≤ 5) ∧
    (0 ≤ (compute_cmef_scores market ticker candles cg_info gh_repo_obj
        (alpha_map profile)).R ∧
      (compute_cmef_scores market ticker candles cg_info gh_repo_obj
        (alpha_map profile)).R ≤ 1) ∧
    (0 ≤ (compute_cmef_scores market ticker candles cg_info gh_repo_obj
        (alpha_map profile)).OTS ∧
      (compute_cmef_scores market ticker candles cg_info gh_repo_obj
        (alpha_map profile)).OTS ≤ 5) ∧
    (0 ≤ (compute_cmef_scores market ticker candles cg_info gh_repo_obj
        (alpha_map profile)).RAR ∧
      (compute_cmef_scores market ticker candles cg_info gh_repo_obj
        (alpha_map profile)).RAR ≤ 5) :=
  compute_bounds market ticker candles cg_info gh_repo_obj (alpha_map profile)
    (alpha_map_mem profile).1 (alpha_map_mem profile).2

/-- C5: whenever the candle history is absent or has fewer than two points,
the performance score is exactly 2.5 and the financial risk is exactly 0.4,
whatever every other field is. -/
theorem C5_fallback_determinism (market : String) (ticker : Ticker)
    (candles : Option (List Candle)) (cg_info : Option CGInfo)
    (gh_repo_obj : Option GHRepo) (alpha : ℝ)
    (h : ∀ cs, candles = some cs → cs.length < 2) :
    (compute_cmef_scores market ticker candles cg_info gh_repo_obj
        alpha).trace.K_components.A15_perf = 2.5 ∧
    (compute_cmef_scores market ticker candles cg_info gh_repo_obj
        alpha).trace.r_fin_calc = 0.4 := by
  rw [compute_A15_eq, compute_rfin_eq]
  rcases candles with _ | cs
  · exact ⟨rfl, rfl⟩
  · have hlen := h cs rfl
    constructor
    · have hpct : pct_30d_of (some cs) = none := by
        unfold pct_30d_of
        simp only
        rw [if_neg (by omega)]
      rw [hpct]
      rfl
    · unfold r_fin_of
      simp only
      rw [if_neg (by omega)]

/-- C5 witness: no candles at all. -/
theorem C5_witness :
    (∀ cs : List Candle, (none : Option (List Candle)) = some cs → cs.length < 2) ∧
    (compute_cmef_scores ("BTC-EUR") { last := 100, volume := 0 } none none none
        0.6).trace.K_components.A15_perf = 2.5 ∧
    (compute_cmef_scores ("BTC-EUR") { last := 100, volume := 0 } none none none
        0.6).trace.r_fin_calc = 0.4 := by
  refine ⟨?_, ?_, ?_⟩
  · intro cs h
    exact absurd h (by simp)
  · exact (C5_fallback_determinism ("BTC-EUR") { last := 100, volume := 0 } none none none
      0.6 (fun _ h => nomatch h)).1
  · exact (C5_fallback_determinism ("BTC-EUR") { last := 100, volume := 0 } none none none
      0.6 (fun _ h => nomatch h)).2

/-- C6: holding everything else fixed, a larger 24h volume never lowers the
liquidity score; a larger market cap never lowers the market-cap score; and
with a fixed positive star count, more open issues never lower the technical
risk. -/
theorem C6_monotonicity :
    (∀ (market : String) (last v1 v2 : ℝ) (candles : Option (List Candle))
        (cg_info : Option CGInfo) (gh_repo_obj : Option GHRepo) (alpha : ℝ),
      v1 ≤ v2 →
        (compute_cmef_scores market { last := last, volume := v1 } candles cg_info
            gh_repo_obj alpha).trace.K_components.A5_volume ≤
          (compute_cmef_scores market { last := last, volume := v2 } candles cg_info
            gh_repo_obj alpha).trace.K_components.A5_volume) ∧
    (∀ (market : String) (ticker : Ticker) (candles : Option (List Candle))
        (comm : Option CommunityData) (gh_repo_obj : Option GHRepo) (alpha mc1 mc2 : ℝ),
      mc1 ≤ mc2 →
        (compute_cmef_scores market ticker candles
            (some { market_data := some { market_cap_eur := some mc1 },
                    community_data := comm })
            gh_repo_obj alpha).trace.K_components.A1_market_cap ≤
          (compute_cmef_scores market ticker candles
            (some { market_data := some { market_cap_eur := some mc2 },
                    community_data := comm })
            gh_repo_obj alpha).trace.K_components.A1_market_cap) ∧
    (∀ (market : String) (ticker : Ticker) (candles : Option (List Candle))
        (cg_info : Option CGInfo) (alpha s i1 i2 : ℝ),
      0 < s → i1 ≤ i2 →
        (compute_cmef_scores market ticker candles cg_info
            (some { stargazers_count := some s, open_issues_count := some i1 })
            alpha).trace.r_tech_calc ≤
          (compute_cmef_scores market ticker candles cg_info
            (some { stargazers_count := some s, open_issues_count := some i2 })
            alpha).trace.r_tech_calc) := by
  refine ⟨?_, ?_, ?_⟩
  · intro market last v1 v2 candles cg_info gh_repo_obj alpha h
    rw [compute_A5_eq, compute_A5_eq]
    apply to_score_0_5_mono
    apply min_le_min le_rfl
    exact (div_le_div_iff_of_pos_right (by norm_num)).mpr h
  · intro market ticker candles comm gh_repo_obj alpha mc1 mc2 h
    rw [compute_A1_eq, compute_A1_eq]
    simp only [Option.some_bind, Option.getD_some]
    exact to_score_0_5_mono (normalize_log_mono (by norm_num) h)
  · intro market ticker candles cg_info alpha s i1 i2 hs h
    rw [compute_rtech_eq, compute_rtech_eq]
    unfold r_tech_of
    simp only [Option.getD_some]
    rw [if_pos hs, if_pos hs]
    apply min_le_min le_rfl
    apply max_le_max le_rfl
    have hdiv : i1 / s ≤ i2 / s := (div_le_div_iff_of_pos_right hs).mpr h
    linarith

/-- C6 witness: concrete instances of the three monotonicity statements. -/
theorem C6_witness :
    ((1 : ℝ) ≤ 2 ∧
      (compute_cmef_scores ("M") { last := 1, volume := 1 } none none none
          0.6).trace.K_components.A5_volume ≤
        (compute_cmef_scores ("M") { last := 1, volume := 2 } none none none
          0.6).trace.K_components.A5_volume) ∧
    ((10 : ℝ) ≤ 20 ∧
      (compute_cmef_scores ("M") { last := 1, volume := 1 } none
          (some { market_data := some { market_cap_eur := some 10 },
                  community_data := none }) none 0.6).trace.K_components.A1_market_cap ≤
        (compute_cmef_scores ("M") { last := 1, volume := 1 } none
          (some { market_data := some { market_cap_eur := some 20 },
                  community_data := none }) none 0.6).trace.K_components.A1_market_cap) ∧
    ((0 : ℝ) < 5 ∧ (1 : ℝ) ≤ 2 ∧
      (compute_cmef_scores ("M") { last := 1, volume := 1 } none none
          (some { stargazers_count := some 5, open_issues_count := some 1 })
          0.6).trace.r_tech_calc ≤
        (compute_cmef_scores ("M") { last := 1, volume := 1 } none none
          (some { stargazers_count := some 5, open_issues_count := some 2 })
          0.6).trace.r_tech_calc) :=
  ⟨⟨by norm_num, C6_monotonicity.1 ("M") 1 1 2 none none none 0.6 (by norm_num)⟩,
    ⟨by norm_num, C6_monotonicity.2.1 ("M") { last := 1, volume := 1 } none none none
      0.6 10 20 (by norm_num)⟩,
    ⟨by norm_num, by norm_num, C6_monotonicity.2.2 ("M") { last := 1, volume := 1 } none
      none 0.6 5 1 2 (by norm_num) (by norm_num)⟩⟩

/-- C7 (counterexample to the claim as stated): the code rounds OTS to 3
decimals, so for the realizable factor scores K = 0.504 and M = 0.5 (K ≠ M)
the Balanced and Growth OTS values coincide (both 0.502): the three OTS
values are not pairwise distinct. -/
theorem C7_counterexample :
    (c7_result ("Balanced")).K = 0.504 ∧ (c7_result ("Balanced")).M = 0.5 ∧
    (c7_result ("Balanced")).K ≠ (c7_result ("Balanced")).M ∧
    (c7_result ("Balanced")).OTS = (c7_result ("Growth")).OTS := by
  refine ⟨c7_K _, c7_M _, ?_, ?_⟩
  · rw [c7_K, c7_M]
    norm_num
  · rw [c7_OTS_balanced, c7_OTS_growth]

/-- C7 (amended): before the final 3-decimal round, the alpha blend
K*alpha + M*(1-alpha) is pairwise distinct across the three profiles whenever
K ≠ M; the rounded OTS values of the code can coincide. -/
theorem C7_profile_sensitivity_amended (K M : ℝ) (h : K ≠ M) :
    OTS_blend K M (alpha_map ("Conservative")) ≠ OTS_blend K M (alpha_map ("Balanced")) ∧
    OTS_blend K M (alpha_map ("Conservative")) ≠ OTS_blend K M (alpha_map ("Growth")) ∧
    OTS_blend K M (alpha_map ("Balanced")) ≠ OTS_blend K M (alpha_map ("Growth")) := by
  rw [alpha_map_conservative, alpha_map_balanced, alpha_map_growth]
  unfold OTS_blend
  exact ⟨fun hc => h (by linarith), fun hc => h (by linarith), fun hc => h (by linarith)⟩

/-- C7 witness: K = 1, M = 0. -/
theorem C7_witness :
    (1 : ℝ) ≠ 0 ∧
    (OTS_blend 1 0 (alpha_map ("Conservative")) ≠ OTS_blend 1 0 (alpha_map ("Balanced")) ∧
      OTS_blend 1 0 (alpha_map ("Conservative")) ≠ OTS_blend 1 0 (alpha_map ("Growth")) ∧
      OTS_blend 1 0 (alpha_map ("Balanced")) ≠ OTS_blend 1 0 (alpha_map ("Growth"))) :=
  ⟨by norm_num, C7_profile_sensitivity_amended 1 0 (by norm_num)⟩

/-- C8 (counterexample to the claim as stated): with volume 1402000, no other
data and the Conservative profile, the pipeline with full precision retained
until a single final 3-decimal round publishes 0.403, while the code --
which rounds each intermediate to 3 decimals -- publishes RAR = 0.402. -/
theorem C8_counterexample :
    round3 (unrounded_RAR c8_ticker none none none (alpha_map ("Conservative"))) = 0.403 ∧
    c8_result.RAR = 0.402 ∧
    round3 (unrounded_RAR c8_ticker none none none (alpha_map ("Conservative"))) ≠
      c8_result.RAR := by
  refine ⟨c8_unrounded_round3, c8_RAR, ?_⟩
  rw [c8_unrounded_round3, c8_RAR]
  norm_num

/-- C8 (amended): the code's actual rounding discipline: OTS is computed from
the already-rounded K and M and RAR from the already-rounded OTS and R, each
rounded again to 3 decimals; the published OTS and RAR are hence stable
under a further 3-decimal round, but they are not the single-final-round
values of the unrounded pipeline. -/
theorem C8_rounding_discipline_amended (market : String) (ticker : Ticker)
    (candles : Option (List Candle)) (cg_info : Option CGInfo)
    (gh_repo_obj : Option GHRepo) (alpha : ℝ) :
    (compute_cmef_scores market ticker candles cg_info gh_repo_obj alpha).OTS =
      round3 (OTS_blend
        (compute_cmef_scores market ticker candles cg_info gh_repo_obj alpha).K
        (compute_cmef_scores market ticker candles cg_info gh_repo_obj alpha).M alpha) ∧
    (compute_cmef_scores market ticker candles cg_info gh_repo_obj alpha).RAR =
      round3 ((compute_cmef_scores market ticker candles cg_info gh_repo_obj alpha).OTS *
        (1 - (compute_cmef_scores market ticker candles cg_info gh_repo_obj alpha).R)) ∧
    round3 ((compute_cmef_scores market ticker candles cg_info gh_repo_obj alpha).OTS) =
      (compute_cmef_scores market ticker candles cg_info gh_repo_obj alpha).OTS ∧
    round3 ((compute_cmef_scores market ticker candles cg_info gh_repo_obj alpha).RAR) =
      (compute_cmef_scores market ticker candles cg_info gh_repo_obj alpha).RAR :=
  ⟨compute_OTS_eq _ _ _ _ _ _, compute_RAR_eq _ _ _ _ _ _,
    by rw [compute_OTS_eq]; exact round3_idem _,
    by rw [compute_RAR_eq]; exact round3_idem _⟩

/-- C9: a missing ticker or a last price ≤ 0 halts report generation with the
explicit market-data failure message and no ScoreResult; any ticker with a
positive price yields a report, whatever other inputs are missing. -/
theorem C9_price_sentinel_halt (best_market : String)
    (candles : Option (List Candle)) (cg_info : Option CGInfo)
    (gh_obj : Option GHRepo) (profile : String) :
    (generate_report best_market none candles cg_info gh_obj profile =
      Except.error could_not_fetch_msg) ∧
    (∀ t : Ticker, t.last ≤ 0 →
      generate_report best_market (some t) candles cg_info gh_obj profile =
        Except.error could_not_fetch_msg) ∧
    (∀ t : Ticker, 0 < t.last →
      generate_report best_market (some t) candles cg_info gh_obj profile =
        Except.ok { results := compute_cmef_scores best_market t candles cg_info gh_obj
                      (alpha_map profile),
                    rec_ := recommendation (compute_cmef_scores best_market t candles
                      cg_info gh_obj (alpha_map profile)).RAR }) := by
  refine ⟨rfl, fun t h => ?_, fun t h => ?_⟩
  · simp only [generate_report]
    rw [if_pos h]
  · simp only [generate_report]
    rw [if_neg (not_le.mpr h)]

/-- C9 witness: the three branches at concrete inputs (price 0 sentinel and
price 100). -/
theorem C9_witness :
    (generate_report ("BTC-EUR") none none none none ("Balanced") =
      Except.error could_not_fetch_msg) ∧
    (({ last := 0, volume := 5 } : Ticker).last ≤ 0 ∧
      generate_report ("BTC-EUR") (some { last := 0, volume := 5 }) none none none
          ("Balanced") = Except.error could_not_fetch_msg) ∧
    ((0 : ℝ) < ({ last := 100, volume := 5 } : Ticker).last ∧
      generate_report ("BTC-EUR") (some { last := 100, volume := 5 }) none none none
          ("Balanced") =
        Except.ok { results := compute_cmef_scores ("BTC-EUR") { last := 100, volume := 5 }
                      none none none (alpha_map ("Balanced")),
                    rec_ := recommendation (compute_cmef_scores ("BTC-EUR")
                      { last := 100, volume := 5 } none none none
                      (alpha_map ("Balanced"))).RAR }) :=
  ⟨(C9_price_sentinel_halt ("BTC-EUR") none none none ("Balanced")).1,
    ⟨by norm_num,
      (C9_price_sentinel_halt ("BTC-EUR") none none none ("Balanced")).2.1
        { last := 0, volume := 5 } (by norm_num)⟩,
    ⟨by norm_num,
      (C9_price_sentinel_halt ("BTC-EUR") none none none ("Balanced")).2.2
        { last := 100, volume := 5 } (by norm_num)⟩⟩

/-- C10: the scoring core is a pure function: two invocations on equal
inputs produce equal ScoreResults (scores and trace alike); there is no
randomness and no hidden state in the embedding of compute_cmef_scores. -/
theorem C10_idempotence (market1 market2 : String) (t1 t2 : Ticker)
    (candles1 candles2 : Option (List Candle)) (cg1 cg2 : Option CGInfo)
    (gh1 gh2 : Option GHRepo) (alpha1 alpha2 : ℝ)
    (hm : market1 = market2) (ht : t1 = t2) (hc : candles1 = candles2)
    (hg : cg1 = cg2) (hh : gh1 = gh2) (ha : alpha1 = alpha2) :
    compute_cmef_scores market1 t1 candles1 cg1 gh1 alpha1 =
      compute_cmef_scores market2 t2 candles2 cg2 gh2 alpha2 := by
  subst hm ht hc hg hh ha
  rfl

/-- C10 witness: a repeated concrete invocation. -/
theorem C10_witness :
    compute_cmef_scores ("BTC-EUR") { last := 1, volume := 2 } none none none 0.6 =
      compute_cmef_scores ("BTC-EUR") { last := 1, volume := 2 } none none none 0.6 :=
  C10_idempotence ("BTC-EUR") ("BTC-EUR") { last := 1, volume := 2 }
    { last := 1, volume := 2 } none none none none none none 0.6 0.6
    rfl rfl rfl rfl rfl rfl

end

end CmefX
